import Mathlib

/-!
Verification of the schema-driven model synthesis and example-generation
engine of the prompt-discovery client (examples/fastmcp/prompt_complex_data.py).

The Python functions are shallowly embedded as Lean definitions:
  - Python type objects produced by the pipeline (str, int, float, bool,
    NoneType, Any, List[...], Dict[...]) become the inductive `PyType`;
  - the three regular expressions of the source are modelled faithfully
    (including the non-greedy group of the suffix match, greedy groups,
    the fact that `.` does not match a newline, and that `$` also matches
    just before one trailing newline);
  - a Python `KeyError` on a missing dictionary key becomes `Except.error`;
  - the `fields` dictionary of `create_pydantic_model_from_schema` becomes
    an association list with Python dict-update semantics (re-assignment
    keeps the original position, replaces the value);
  - the `TypeError` Python raises when a generated dictionary key is
    unhashable (a list or dict instance) becomes `Except.error` in the
    example generator;
  - the blanket try/except of `discover_capabilities` becomes a loop that
    emits the successful prefix and stops at the first error entry.
-/

/-- The Python type values that `extract_type_from_description` and the
coarse schema-type table can produce. -/
inductive PyType where
  | str
  | int
  | float
  | bool
  | noneType
  | any
  | list (elem : PyType)
  | dict (key : PyType) (value : PyType)
deriving DecidableEq, Repr

/-- The `basic_types` dictionary of the source:
`{'str': str, 'int': int, 'float': float, 'bool': bool, 'EmailStr': str}`,
as a total lookup returning `none` for absent keys (`dict.get` with no hit). -/
def lookupBasic (s : String) : Option PyType :=
  if s = "str" then some PyType.str
  else if s = "int" then some PyType.int
  else if s = "float" then some PyType.float
  else if s = "bool" then some PyType.bool
  else if s = "EmailStr" then some PyType.str
  else none

/-- The coarse JSON-schema type table of `create_pydantic_model_from_schema`
(`.get(argument["type"], Any)`). -/
def coarseTypeMap (t : String) : PyType :=
  if t = "string" then PyType.str
  else if t = "integer" then PyType.int
  else if t = "boolean" then PyType.bool
  else if t = "number" then PyType.float
  else if t = "null" then PyType.noneType
  else if t = "array" then PyType.list PyType.any
  else if t = "object" then PyType.dict PyType.str PyType.any
  else PyType.any

/-- Python `re` semantics: the whitespace characters matched by `\s`
(ASCII range) and stripped by `str.strip()`. -/
def pyWsChars : List Char := [' ', '\t', '\n', '\r', '\x0b', '\x0c']

/-- Python `str.strip()` on a character list. -/
def pyStrip (cs : List Char) : List Char :=
  ((cs.dropWhile (fun c => pyWsChars.contains c)).reverse.dropWhile
    (fun c => pyWsChars.contains c)).reverse

/-- Model of `re.search(r'\((.*?)\)$', description)`, returning group 1.

Since `$` forces the closing parenthesis to sit at the end of the string
(or just before one trailing newline), the match, when it exists, starts at
the first `(` that is not separated from the final `)` by a newline
(`.` cannot match a newline), and the non-greedy group captures everything
in between.  `firstParenContent` scans for that `(` and returns the
captured content. -/
def firstParenContent : List Char → Option (List Char)
  | [] => none
  | '(' :: rest =>
      if rest.contains '\n' then firstParenContent rest else some rest
  | _ :: rest => firstParenContent rest

/-- See `firstParenContent`: the full model of
`re.search(r'\((.*?)\)$', s)`, group 1. -/
def pySearchParenSuffix (s : String) : Option String :=
  let body :=
    match s.data.getLast? with
    | some '\n' => s.data.dropLast
    | _ => s.data
  match body.getLast? with
  | some ')' => (firstParenContent body.dropLast).map List.asString
  | _ => none

/-- The characters of `cs` before its first newline: the furthest a
greedy `.*` can reach in Python `re`. -/
def segUntilNewline (cs : List Char) : List Char :=
  cs.takeWhile (fun c => c ≠ '\n')

/-- The prefix of `cs` before the last `]` of its newline-free initial
segment: the content of a greedy `(.*)` that must be followed by `\]`.
`none` when that segment has no `]`. -/
def upToLastClose (cs : List Char) : Option (List Char) :=
  match (segUntilNewline cs).reverse.dropWhile (fun c => c ≠ ']') with
  | ']' :: rest => some rest.reverse
  | _ => none

/-- Model of `re.match(r'List\[(.*)\]', type_str)`, returning group 1:
the literal prefix `List[`, then a greedy newline-free group, then `]`. -/
def listMatch : List Char → Option (List Char)
  | 'L' :: 'i' :: 's' :: 't' :: '[' :: rest => upToLastClose rest
  | _ => none

/-- All ways to split `cs` as `before ++ [comma] ++ after`, leftmost
comma first. -/
def commaSplits : List Char → List (List Char × List Char)
  | [] => []
  | ',' :: rest =>
      ([], rest) :: (commaSplits rest).map (fun p => (',' :: p.1, p.2))
  | c :: rest => (commaSplits rest).map (fun p => (c :: p.1, p.2))

/-- First success of `f` along a list: the backtracking order of a regex
engine trying candidate splits. -/
def firstSome : List α → (α → Option β) → Option β
  | [], _ => none
  | x :: xs, f =>
      match f x with
      | some y => some y
      | none => firstSome xs f

/-- Backtracking for `\s*(.*)\]` after the comma: try consuming `w`
whitespace characters (longest first), then a greedy newline-free group
ending at a `]`. -/
def tryWs (r : List Char) : Nat → Option (List Char)
  | 0 => upToLastClose r
  | Nat.succ w =>
      match upToLastClose (r.drop (w + 1)) with
      | some b => some b
      | none => tryWs r w

/-- Model of matching `,\s*(.*)\]` against the remainder after group 1:
greedy `\s*` with backtracking, then greedy group 2 up to a final `]`. -/
def tailMatch (r : List Char) : Option (List Char) :=
  tryWs r (r.takeWhile (fun c => pyWsChars.contains c)).length

/-- Model of `re.match(r'Dict\[(.*),\s*(.*)\]', type_str)`, returning
groups 1 and 2.  The greedy first group backtracks from the rightmost
comma it can reach (no newline in between) toward the left, and for each
split the tail `\s*(.*)\]` is matched with its own backtracking. -/
def dictMatch : List Char → Option (List Char × List Char)
  | 'D' :: 'i' :: 'c' :: 't' :: '[' :: rest =>
      firstSome (((commaSplits rest).filter (fun p => !p.1.contains '\n')).reverse)
        (fun p => (tailMatch p.2).map (fun v => (p.1, v)))
  | _ => none

/-- The inner helper `parse_nested_type` of `extract_type_from_description`:
try `List[(.*)]` (element via `basic_types.get(inner, Any)`, no recursion),
then `Dict[(.*),\s*(.*)]` (key via `basic_types.get(key, str)`, value via
`basic_types.get(value, Any)`, both stripped), else `Any`. -/
def parse_nested_type (type_str : String) : PyType :=
  match listMatch type_str.data with
  | some inner => PyType.list ((lookupBasic inner.asString).getD PyType.any)
  | none =>
      match dictMatch type_str.data with
      | some kv =>
          PyType.dict ((lookupBasic (pyStrip kv.1).asString).getD PyType.str)
            ((lookupBasic (pyStrip kv.2).asString).getD PyType.any)
      | none => PyType.any

/-- The body of `extract_type_from_description` applied to a recovered
suffix: a `basic_types` hit wins, otherwise `parse_nested_type`. -/
def parseHint (type_str : String) : PyType :=
  match lookupBasic type_str with
  | some t => t
  | none => parse_nested_type type_str

/-- `extract_type_from_description`: `None` when the trailing-parenthesis
search fails, otherwise the parsed hint. -/
def extract_type_from_description (description : String) : Option PyType :=
  (pySearchParenSuffix description).map parseHint

/-- One raw argument record of a prompt schema, as the JSON dictionary the
client receives: each key may be absent.  `argument["name"]` and
`argument["type"]` are plain subscripts in the source (KeyError when the
key is absent); `description` and `required` are read with `.get` and a
default. -/
structure Argument where
  name : Option String
  description : Option String
  type : Option String
  required : Option Bool
deriving DecidableEq, Repr

/-- What `create_pydantic_model_from_schema` stores per field: the resolved
Python type, the required flag (`Field(...)` vs `Field(None, ...)`), and the
description passed to `Field`. -/
structure FieldInfo where
  type : PyType
  required : Bool
  description : String
deriving DecidableEq, Repr

/-- The dynamically created pydantic model: its name and its ordered fields,
as `create_model(model_name, **fields)` receives them. -/
structure SynthesizedModel where
  name : String
  fields : List (String × FieldInfo)
deriving DecidableEq, Repr

/-- Lines 91-98 of the source: the field type is the description hint when
`extract_type_from_description` recovers one; otherwise the coarse table is
consulted at `argument["type"]`, which is a KeyError when the key is
absent. -/
def resolveFieldType (description : String) (declType : Option String) :
    Except String PyType :=
  match extract_type_from_description description with
  | some t => Except.ok t
  | none =>
      match declType with
      | some ty => Except.ok (coarseTypeMap ty)
      | none => Except.error ("KeyError: type")

/-- One iteration of the loop of `create_pydantic_model_from_schema`:
read the argument record, resolve its type, package the field. -/
def processArgument (a : Argument) : Except String (String × FieldInfo) :=
  match a.name with
  | none => Except.error ("KeyError: name")
  | some fname =>
      match resolveFieldType (a.description.getD ("")) a.type with
      | Except.error e => Except.error e
      | Except.ok ft =>
          Except.ok (fname, ⟨ft, a.required.getD false, a.description.getD ("")⟩)

/-- Python dict assignment `fields[field_name] = v`: a re-assigned key keeps
its original position and takes the new value; a new key is appended. -/
def insertField (fields : List (String × FieldInfo)) (k : String) (v : FieldInfo) :
    List (String × FieldInfo) :=
  if fields.any (fun p => p.1 = k) then
    fields.map (fun p => if p.1 = k then (k, v) else p)
  else fields ++ [(k, v)]

/-- The loop of `create_pydantic_model_from_schema` over the argument list,
threading the `fields` dictionary. -/
def buildFields : List Argument → List (String × FieldInfo) →
    Except String (List (String × FieldInfo))
  | [], acc => Except.ok acc
  | a :: rest, acc =>
      match processArgument a with
      | Except.error e => Except.error e
      | Except.ok nf => buildFields rest (insertField acc nf.1 nf.2)

/-- `create_pydantic_model_from_schema(schema, model_name)`: iterate over
`schema.get("arguments", [])` building the fields dictionary, then create
the model.  The argument list stands for the schema (an absent `arguments`
key is the empty list). -/
def create_pydantic_model_from_schema (arguments : List Argument)
    (model_name : String) : Except String SynthesizedModel :=
  match buildFields arguments [] with
  | Except.error e => Except.error e
  | Except.ok fs => Except.ok ⟨model_name, fs⟩

/-- The JSON-like value tree built by `generate_field_example`: strings,
lists, and dictionaries (as ordered key/value pairs). -/
inductive ExampleValue where
  | str (s : String)
  | list (xs : List ExampleValue)
  | dict (entries : List (ExampleValue × ExampleValue))

/-- Whether a generated example value is hashable as a Python dictionary
key: the placeholder strings are, list and dict instances are not. -/
def ExampleValue.hashable : ExampleValue → Bool
  | ExampleValue.str _ => true
  | ExampleValue.list _ => false
  | ExampleValue.dict _ => false

/-- The `TypeError` message Python raises when a dictionary key is an
unhashable value. -/
def unhashableMsg : ExampleValue → String
  | ExampleValue.list _ => "TypeError: unhashable type: 'list'"
  | _ => "TypeError: unhashable type: 'dict'"

/-- The inner `generate_field_example` of `generate_example_input`:
typed placeholder strings for scalars, a one-element list for `list`, a
one-entry dictionary for `dict`, and an `any` placeholder for everything
else (including `type(None)` and `Any`).  The dict branch builds a real
Python dictionary `{key_example: value_example}`: the key expression is
evaluated first, then the value expression, and the construction raises
`TypeError` when the generated key is unhashable (a list or dict value,
i.e. when the key type is itself a `List[...]`/`Dict[...]`); a `TypeError`
raised by a recursive call propagates. -/
def generate_field_example : PyType → String → Except String ExampleValue
  | PyType.str, n => Except.ok (ExampleValue.str ("<string: " ++ n ++ ">"))
  | PyType.int, n => Except.ok (ExampleValue.str ("<integer: " ++ n ++ ">"))
  | PyType.float, n => Except.ok (ExampleValue.str ("<float: " ++ n ++ ">"))
  | PyType.bool, n => Except.ok (ExampleValue.str ("<boolean: " ++ n ++ ">"))
  | PyType.list e, n =>
      match generate_field_example e (n ++ " item") with
      | Except.error msg => Except.error msg
      | Except.ok v => Except.ok (ExampleValue.list [v])
  | PyType.dict k v, n =>
      match generate_field_example k (n ++ " key") with
      | Except.error msg => Except.error msg
      | Except.ok kv =>
          match generate_field_example v (n ++ " value") with
          | Except.error msg => Except.error msg
          | Except.ok vv =>
              if kv.hashable then Except.ok (ExampleValue.dict [(kv, vv)])
              else Except.error (unhashableMsg kv)
  | PyType.noneType, n => Except.ok (ExampleValue.str ("<any: " ++ n ++ ">"))
  | PyType.any, n => Except.ok (ExampleValue.str ("<any: " ++ n ++ ">"))

/-- The loop of `generate_example_input` over the model fields, in
declaration order; a `TypeError` raised by one field's generation
propagates out of the whole function. -/
def buildExampleData : List (String × FieldInfo) →
    Except String (List (String × ExampleValue))
  | [] => Except.ok []
  | p :: rest =>
      match generate_field_example p.2.type p.1 with
      | Except.error msg => Except.error msg
      | Except.ok v =>
          match buildExampleData rest with
          | Except.error msg => Except.error msg
          | Except.ok l => Except.ok ((p.1, v) :: l)

/-- `generate_example_input`: the `example_data` dictionary, one entry per
model field in declaration order (its `json.dumps` serialization is outside
the model). -/
def generate_example_input (m : SynthesizedModel) :
    Except String (List (String × ExampleValue)) :=
  buildExampleData m.fields

/-- How Python displays a type object inside the arguments of a `typing`
generic (`str`, not `<class 'str'>`). -/
def pyTypeReprInner : PyType → String
  | PyType.str => "str"
  | PyType.int => "int"
  | PyType.float => "float"
  | PyType.bool => "bool"
  | PyType.noneType => "NoneType"
  | PyType.any => "typing.Any"
  | PyType.list e => "typing.List[" ++ pyTypeReprInner e ++ "]"
  | PyType.dict k v =>
      "typing.Dict[" ++ pyTypeReprInner k ++ ", " ++ pyTypeReprInner v ++ "]"

/-- `str(field_type)` in the f-string of `print_pydantic_model`: bare
classes display as `<class '...'>`, `typing` generics in bracketed form. -/
def pyTypeRepr : PyType → String
  | PyType.str => "<class 'str'>"
  | PyType.int => "<class 'int'>"
  | PyType.float => "<class 'float'>"
  | PyType.bool => "<class 'bool'>"
  | PyType.noneType => "<class 'NoneType'>"
  | t => pyTypeReprInner t

/-- `print_pydantic_model` as the list of lines it prints: a header, then
one line per field (empty description replaced by the fixed placeholder,
Python `or` on a falsy string). -/
def print_pydantic_model (m : SynthesizedModel) : List String :=
  ("class " ++ m.name ++ "(BaseModel):") ::
    m.fields.map (fun p =>
      "    " ++ p.1 ++ ": " ++ pyTypeRepr p.2.type ++ " = Field(..., description=" ++
        (if p.2.description = "" then "No description provided" else p.2.description) ++ ")")

/-- One prompt as listed by the server: `p.model_dump_json()` yields its
name, description and argument records. -/
structure Prompt where
  name : String
  description : Option String
  arguments : List Argument

/-- One entry of a discovery run's report: a prompt processed successfully
(its synthesized model, rendered declaration and example payload), or the
single error report of the blanket `except`. -/
inductive DiscoveryEntry where
  | ok (name : String) (model : SynthesizedModel)
      (rendered : List String) (payload : List (String × ExampleValue))
  | error (msg : String)

/-- The per-prompt body of the loop of `discover_capabilities`: build the
model from the prompt's schema, render it (rendering cannot fail), then
generate the example input; a failure at either fallible step escapes to
the surrounding try/except. -/
def processPrompt (p : Prompt) : Except String DiscoveryEntry :=
  match create_pydantic_model_from_schema p.arguments ("PromptInputModel") with
  | Except.error e => Except.error e
  | Except.ok m =>
      match generate_example_input m with
      | Except.error e => Except.error e
      | Except.ok ex =>
          Except.ok (DiscoveryEntry.ok p.name m (print_pydantic_model m) ex)

/-- `discover_capabilities`: the whole prompt loop sits inside one
try/except, so the report is the successful prefix followed by at most one
error entry; prompts after the first failure are never processed. -/
def discover_capabilities : List Prompt → List DiscoveryEntry
  | [] => []
  | p :: rest =>
      match processPrompt p with
      | Except.ok entry => entry :: discover_capabilities rest
      | Except.error e => [DiscoveryEntry.error ("Error: " ++ e)]

/-- The recognized scalar keywords of the hint grammar. -/
inductive ScalarKw where
  | str
  | int
  | float
  | bool
  | emailStr
deriving DecidableEq, Repr

/-- The textual form of a scalar keyword. -/
def ScalarKw.text : ScalarKw → String
  | ScalarKw.str => "str"
  | ScalarKw.int => "int"
  | ScalarKw.float => "float"
  | ScalarKw.bool => "bool"
  | ScalarKw.emailStr => "EmailStr"

/-- The type a scalar keyword denotes (`EmailStr` denotes `str`). -/
def ScalarKw.denote : ScalarKw → PyType
  | ScalarKw.str => PyType.str
  | ScalarKw.int => PyType.int
  | ScalarKw.float => PyType.float
  | ScalarKw.bool => PyType.bool
  | ScalarKw.emailStr => PyType.str

/-- The family of well-formed nested generics of the round-trip property:
a scalar keyword repeatedly wrapped in `List[...]` or `Dict[str, ...]`. -/
inductive Wrap where
  | base (k : ScalarKw)
  | wrapList (w : Wrap)
  | wrapDictStr (w : Wrap)
deriving DecidableEq, Repr

/-- The bracketed textual form of a wrapping. -/
def Wrap.text : Wrap → String
  | Wrap.base k => k.text
  | Wrap.wrapList w => "List[" ++ w.text ++ "]"
  | Wrap.wrapDictStr w => "Dict[str, " ++ w.text ++ "]"

/-- The type tree a wrapping denotes: the structure of its bracketed form. -/
def Wrap.denote : Wrap → PyType
  | Wrap.base k => k.denote
  | Wrap.wrapList w => PyType.list w.denote
  | Wrap.wrapDictStr w => PyType.dict PyType.str w.denote

/-- The nesting depth of a wrapping (number of wraps around the keyword). -/
def Wrap.depth : Wrap → Nat
  | Wrap.base _ => 0
  | Wrap.wrapList w => w.depth + 1
  | Wrap.wrapDictStr w => w.depth + 1

/-- A schema argument whose description carries an unknown parenthesized
keyword, while the declared schema type is a recognized token. -/
def widgetArg : Argument :=
  ⟨some ("count"), some ("The widget count (widget)"), some ("integer"), some true⟩

/-- Two arguments sharing the field name `email` with different hints. -/
def dupArg1 : Argument :=
  ⟨some ("email"), some ("Primary email (str)"), some ("string"), some true⟩

/-- See `dupArg1`. -/
def dupArg2 : Argument :=
  ⟨some ("email"), some ("Backup email (int)"), some ("string"), some true⟩

/-- The duplicate-name schema built from `dupArg1` and `dupArg2`. -/
def dupEmailSchema : List Argument := [dupArg1, dupArg2]

/-- A prompt whose only argument has no embedded hint and no `type` key:
processing it hits the `argument["type"]` KeyError. -/
def badPrompt : Prompt :=
  ⟨"bad", none, [⟨some ("x"), some ("no embedded hint"), none, none⟩]⟩

/-- A prompt that processes successfully. -/
def goodPrompt : Prompt :=
  ⟨"good", none, [⟨some ("name"), some ("Name of the user (str)"), some ("string"), some true⟩]⟩

/-- The end-to-end schema of the spec's final example. -/
def c8Schema : List Argument :=
  [⟨some ("name"), some ("Name of the user (str)"), some ("string"), some true⟩,
   ⟨some ("subscribe"), some ("Whether to subscribe (bool)"), some ("boolean"), some true⟩]

/-- The model the end-to-end schema synthesizes. -/
def c8Model : SynthesizedModel :=
  ⟨"PromptInputModel",
   [("name", ⟨PyType.str, true, "Name of the user (str)"⟩),
    ("subscribe", ⟨PyType.bool, true, "Whether to subscribe (bool)"⟩)]⟩

/-- The depth-2 wrapping `List[List[str]]`. -/
def nestedListWrap : Wrap := Wrap.wrapList (Wrap.wrapList (Wrap.base ScalarKw.str))

/-- C1 (corrected): a recovered hint — parseable or degraded — always wins
over the declared schema type, and the coarse-type fallback runs exactly
when the description has no parenthesized suffix.  (The claim's clause
that an unparseable suffix also falls back to the declared type is false:
see the counterexample.) -/
theorem hint_priority_amended :
    (∀ (n desc : String) (h : PyType) (t : Option String) (r : Option Bool),
        extract_type_from_description desc = some h →
        create_pydantic_model_from_schema [⟨some n, some desc, t, r⟩] ("PromptInputModel")
          = Except.ok ⟨"PromptInputModel", [(n, ⟨h, r.getD false, desc⟩)]⟩) ∧
    (∀ (n desc ty : String) (r : Option Bool),
        extract_type_from_description desc = none →
        create_pydantic_model_from_schema [⟨some n, some desc, some ty, r⟩] ("PromptInputModel")
          = Except.ok ⟨"PromptInputModel", [(n, ⟨coarseTypeMap ty, r.getD false, desc⟩)]⟩) := by
  constructor
  · intro n desc h t r hx
    simp [create_pydantic_model_from_schema, buildFields, processArgument,
      resolveFieldType, hx, insertField]
  · intro n desc ty r hx
    simp [create_pydantic_model_from_schema, buildFields, processArgument,
      resolveFieldType, hx, insertField]

/-- C1 witness: the spec's own examples — an embedded `Dict[str, float]`
hint wins over declared `object`, and a hint-free description with
declared `array` falls back to `List[Any]`. -/
theorem hint_priority_amended_witness :
    create_pydantic_model_from_schema
        [⟨some ("target"), some ("Target value for each metric (Dict[str, float])"),
          some ("object"), some true⟩] ("PromptInputModel")
      = Except.ok ⟨"PromptInputModel",
          [("target", ⟨PyType.dict PyType.str PyType.float, true,
            "Target value for each metric (Dict[str, float])"⟩)]⟩
    ∧ create_pydantic_model_from_schema
        [⟨some ("items"), some ("the items"), some ("array"), none⟩] ("PromptInputModel")
      = Except.ok ⟨"PromptInputModel",
          [("items", ⟨PyType.list PyType.any, false, "the items"⟩)]⟩ :=
  ⟨hint_priority_amended.1 ("target")
      ("Target value for each metric (Dict[str, float])")
      (PyType.dict PyType.str PyType.float) (some ("object")) (some true) rfl,
   hint_priority_amended.2 ("items") ("the items") ("array") none rfl⟩

/-- C1 counterexample: with description `"The widget count (widget)"` and
declared type `integer`, the suffix exists but is not a known keyword; the
code resolves the field to `Any` instead of falling back to `int` as the
claim requires. -/
theorem unparseable_suffix_ignores_declared_type :
    resolveFieldType ("The widget count (widget)") (some ("integer")) = Except.ok PyType.any
    ∧ coarseTypeMap ("integer") = PyType.int
    ∧ PyType.any ≠ PyType.int :=
  ⟨rfl, rfl, by decide⟩

/-- C2 (corrected): when two arguments resolve to the same field name, the
`fields` dictionary silently keeps the last occurrence (at the first
occurrence's position) and a model is produced; no error is reported. -/
theorem duplicate_field_last_wins (a₁ a₂ : Argument) (n : String) (f₁ f₂ : FieldInfo)
    (h₁ : processArgument a₁ = Except.ok (n, f₁))
    (h₂ : processArgument a₂ = Except.ok (n, f₂)) :
    create_pydantic_model_from_schema [a₁, a₂] ("PromptInputModel")
      = Except.ok ⟨"PromptInputModel", [(n, f₂)]⟩ := by
  simp [create_pydantic_model_from_schema, buildFields, h₁, h₂, insertField]

/-- C2 witness: the duplicate `email` schema keeps the second argument's
descriptor. -/
theorem duplicate_field_last_wins_witness :
    create_pydantic_model_from_schema [dupArg1, dupArg2] ("PromptInputModel")
      = Except.ok ⟨"PromptInputModel",
          [("email", ⟨PyType.int, true, "Backup email (int)"⟩)]⟩ :=
  duplicate_field_last_wins dupArg1 dupArg2 ("email")
    ⟨PyType.str, true, "Primary email (str)"⟩
    ⟨PyType.int, true, "Backup email (int)"⟩ rfl rfl

/-- C2 counterexample: the schema with two `email` arguments synthesizes a
model (no `DuplicateFieldError`), with a single field holding the last
occurrence — exactly the last-one-wins behavior the claim forbids. -/
theorem duplicate_email_produces_model :
    create_pydantic_model_from_schema dupEmailSchema ("PromptInputModel")
      = Except.ok ⟨"PromptInputModel",
          [("email", ⟨PyType.int, true, "Backup email (int)"⟩)]⟩
    ∧ dupEmailSchema.map (fun a => a.name) = [some ("email"), some ("email")] :=
  ⟨rfl, rfl⟩

/-- C3 (corrected): the blanket try/except around the whole prompt loop
means a failing prompt is reported once and the remaining prompts of the
run are never processed. -/
theorem prompt_failure_stops_run (p : Prompt) (rest : List Prompt) (e : String)
    (h : processPrompt p = Except.error e) :
    discover_capabilities (p :: rest) = [DiscoveryEntry.error ("Error: " ++ e)] := by
  simp [discover_capabilities, h]

/-- C3 witness: the failing prompt hides the processable one behind it. -/
theorem prompt_failure_stops_run_witness :
    discover_capabilities [badPrompt, goodPrompt]
      = [DiscoveryEntry.error ("Error: " ++ "KeyError: type")] :=
  prompt_failure_stops_run badPrompt [goodPrompt] ("KeyError: type") rfl

/-- C3 counterexample: with the failing prompt first, the run's report has
a single error entry and the following prompt is never reported, while the
same two prompts in the opposite order yield two entries. -/
theorem failed_prompt_blocks_subsequent :
    discover_capabilities [badPrompt, goodPrompt]
      = [DiscoveryEntry.error ("Error: KeyError: type")]
    ∧ (discover_capabilities [goodPrompt, badPrompt]).length = 2 :=
  ⟨rfl, rfl⟩

/-- C4 (corrected): when the `type` key is present, an argument without a
recoverable hint never fails — an unrecognized declared type degrades to
`Any`; but when the `type` key is absent, `argument["type"]` raises (see
the counterexample), so the claim's "absent" half fails. -/
theorem present_type_key_never_errors (a : Argument) (n ty : String)
    (hn : a.name = some n) (ht : a.type = some ty) :
    (∃ fi : FieldInfo, processArgument a = Except.ok (n, fi)) ∧
      (extract_type_from_description (a.description.getD ("")) = none →
        coarseTypeMap ty = PyType.any →
        processArgument a
          = Except.ok (n, ⟨PyType.any, a.required.getD false, a.description.getD ("")⟩)) := by
  constructor
  · cases hx : extract_type_from_description (a.description.getD ("")) with
    | none =>
        exact ⟨⟨coarseTypeMap ty, a.required.getD false, a.description.getD ("")⟩, by
          simp [processArgument, hn, resolveFieldType, hx, ht]⟩
    | some t =>
        exact ⟨⟨t, a.required.getD false, a.description.getD ("")⟩, by
          simp [processArgument, hn, resolveFieldType, hx]⟩
  · intro hx hc
    simp [processArgument, hn, resolveFieldType, hx, ht, hc]

/-- C4 witness: hint-free description with the unrecognized declared type
`mystery` degrades to `Any` without an error. -/
theorem present_type_key_never_errors_witness :
    processArgument ⟨some ("x"), some ("free-form description"), some ("mystery"), none⟩
      = Except.ok ("x", ⟨PyType.any, false, "free-form description"⟩) :=
  (present_type_key_never_errors
      ⟨some ("x"), some ("free-form description"), some ("mystery"), none⟩
      ("x") ("mystery") rfl rfl).2 rfl rfl

/-- C4 counterexample: an argument with no embedded hint and no `type` key
makes model synthesis fail with a KeyError instead of producing an
`Any`-typed field, refuting "never raises on any input". -/
theorem absent_type_key_raises :
    create_pydantic_model_from_schema
        [⟨some ("x"), some ("free-form description"), none, none⟩] ("PromptInputModel")
      = Except.error ("KeyError: type") :=
  rfl

/-- C5 (corrected): a `Dict[...]` hint whose key part is not a recognized
scalar keyword is not rejected, but its key degrades to `str`
(`basic_types.get(key_type, str)`), not to `Any` as the claim states. -/
theorem dict_key_degrades_to_string (s : String) (k v : List Char)
    (hl : listMatch s.data = none)
    (hd : dictMatch s.data = some (k, v))
    (hk : lookupBasic (pyStrip k).asString = none) :
    parse_nested_type s
      = PyType.dict PyType.str ((lookupBasic (pyStrip v).asString).getD PyType.any) := by
  simp [parse_nested_type, hl, hd, hk]

/-- C5 witness: `Dict[foo, int]` has the unrecognized key `foo` and parses
to `Dict[str, int]`. -/
theorem dict_key_degrades_to_string_witness :
    parse_nested_type ("Dict[foo, int]") = PyType.dict PyType.str PyType.int :=
  dict_key_degrades_to_string ("Dict[foo, int]") (("foo").data) (("int").data)
    rfl rfl rfl

/-- C5 counterexample: parsing `Dict[foo, int]` yields key type `str`,
which differs from the `Any` key the claim requires. -/
theorem unparseable_dict_key_not_any :
    parse_nested_type ("Dict[foo, int]") = PyType.dict PyType.str PyType.int
    ∧ PyType.dict PyType.str PyType.int ≠ PyType.dict PyType.any PyType.int :=
  ⟨rfl, by decide⟩

/-- C6 (corrected): a list type generates the one-element sequence built
at context `c ++ " item"` whenever the element's generation succeeds, and
a dict type generates the one-entry mapping at contexts `c ++ " key"` and
`c ++ " value"` whenever the generated key is hashable (a placeholder
string — the scalar key types the pipeline produces) and the value's
generation succeeds; a `Sequence`/`Mapping` key type instead raises
`TypeError` at the dict construction (see the counterexample). -/
theorem container_examples_hashable_key :
    (∀ (e : PyType) (c : String) (v : ExampleValue),
        generate_field_example e (c ++ " item") = Except.ok v →
        generate_field_example (PyType.list e) c
          = Except.ok (ExampleValue.list [v])) ∧
    (∀ (k v : PyType) (c s : String) (vv : ExampleValue),
        generate_field_example k (c ++ " key") = Except.ok (ExampleValue.str s) →
        generate_field_example v (c ++ " value") = Except.ok vv →
        generate_field_example (PyType.dict k v) c
          = Except.ok (ExampleValue.dict [(ExampleValue.str s, vv)])) := by
  constructor
  · intro e c v hv
    simp [generate_field_example, hv]
  · intro k v c s vv hk hv
    simp [generate_field_example, hk, hv, ExampleValue.hashable]

/-- C6 witness: the spec's own examples — `tags` as a sequence of strings
and `scores` as a string-to-integer mapping. -/
theorem container_examples_hashable_key_witness :
    generate_field_example (PyType.list PyType.str) ("tags")
      = Except.ok (ExampleValue.list [ExampleValue.str ("<string: tags item>")])
    ∧ generate_field_example (PyType.dict PyType.str PyType.int) ("scores")
      = Except.ok (ExampleValue.dict [(ExampleValue.str ("<string: scores key>"),
          ExampleValue.str ("<integer: scores value>"))]) :=
  ⟨container_examples_hashable_key.1 PyType.str ("tags")
      (ExampleValue.str ("<string: tags item>")) rfl,
   container_examples_hashable_key.2 PyType.str PyType.int ("scores")
      ("<string: scores key>") (ExampleValue.str ("<integer: scores value>")) rfl rfl⟩

/-- C6 counterexample: with key type `List[str]` the generated key is a
list instance, so the dict construction raises `TypeError` instead of
yielding a one-entry mapping. -/
theorem unhashable_key_mapping_raises :
    generate_field_example (PyType.dict (PyType.list PyType.str) PyType.int) ("scores")
      = Except.error ("TypeError: unhashable type: 'list'")
    ∧ (generate_field_example (PyType.dict (PyType.list PyType.str) PyType.int)
        ("scores")).isOk = false :=
  ⟨rfl, rfl⟩

/-- C7 (confirmed): example generation is a pure function of the type
expression and the context string — equal inputs give equal outputs. -/
theorem generate_deterministic (e₁ e₂ : PyType) (c₁ c₂ : String)
    (he : e₁ = e₂) (hc : c₁ = c₂) :
    generate_field_example e₁ c₁ = generate_field_example e₂ c₂ := by
  rw [he, hc]

/-- C7 witness: determinism at a concrete type and context. -/
theorem generate_deterministic_witness :
    generate_field_example (PyType.list PyType.str) ("tags")
      = generate_field_example (PyType.list PyType.str) ("tags") :=
  generate_deterministic (PyType.list PyType.str) (PyType.list PyType.str)
    ("tags") ("tags") rfl rfl

/-- C8 (confirmed): the two-argument end-to-end schema synthesizes fields
typed `str` and `bool`, and its example payload is
`{"name": "<string: name>", "subscribe": "<boolean: subscribe>"}`. -/
theorem end_to_end_two_field_schema :
    create_pydantic_model_from_schema c8Schema ("PromptInputModel") = Except.ok c8Model
    ∧ generate_example_input c8Model
        = Except.ok [("name", ExampleValue.str ("<string: name>")),
           ("subscribe", ExampleValue.str ("<boolean: subscribe>"))] :=
  ⟨rfl, rfl⟩

/-- C9 (corrected): round-tripping a bracketed generic through the parser
preserves its structure only up to one wrapping; the parser does not
recurse, so the claim's depth-3 family fails (see the counterexample).
Structural equivalence of the re-rendered form with the input is tree
equality of the parse with the input's denotation. -/
theorem roundtrip_depth_le_one (w : Wrap) (h : w.depth ≤ 1) :
    parseHint w.text = w.denote := by
  match w with
  | Wrap.base k => cases k <;> decide
  | Wrap.wrapList (Wrap.base k) => cases k <;> decide
  | Wrap.wrapDictStr (Wrap.base k) => cases k <;> decide
  | Wrap.wrapList (Wrap.wrapList w) => simp [Wrap.depth] at h
  | Wrap.wrapList (Wrap.wrapDictStr w) => simp [Wrap.depth] at h
  | Wrap.wrapDictStr (Wrap.wrapList w) => simp [Wrap.depth] at h
  | Wrap.wrapDictStr (Wrap.wrapDictStr w) => simp [Wrap.depth] at h

/-- C9 witness: `Dict[str, float]` round-trips at depth 1. -/
theorem roundtrip_depth_le_one_witness :
    (Wrap.wrapDictStr (Wrap.base ScalarKw.float)).depth ≤ 1
    ∧ parseHint (Wrap.wrapDictStr (Wrap.base ScalarKw.float)).text
        = (Wrap.wrapDictStr (Wrap.base ScalarKw.float)).denote :=
  ⟨by decide, roundtrip_depth_le_one (Wrap.wrapDictStr (Wrap.base ScalarKw.float)) (by decide)⟩

/-- C9 counterexample: `List[List[str]]` (depth 2, inside the claimed
depth-3 family) parses to `List[Any]`, which is not structurally
equivalent to the input. -/
theorem roundtrip_fails_depth_two :
    nestedListWrap.depth ≤ 3
    ∧ nestedListWrap.text = "List[List[str]]"
    ∧ parseHint nestedListWrap.text = PyType.list PyType.any
    ∧ parseHint nestedListWrap.text ≠ nestedListWrap.denote :=
  ⟨by decide, rfl, rfl, by decide⟩

/-- C10 (confirmed): on `"Percent (0-100) of total (int)"` the suffix
search captures from the first opening parenthesis to the final closing
one, the captured text `"0-100) of total (int"` is not a recognized
keyword, and the field resolves to `Any` — not `int` — whatever the
declared schema type is. -/
theorem first_paren_capture :
    pySearchParenSuffix ("Percent (0-100) of total (int)") = some ("0-100) of total (int")
    ∧ extract_type_from_description ("Percent (0-100) of total (int)") = some PyType.any
    ∧ (∀ t : Option String,
        resolveFieldType ("Percent (0-100) of total (int)") t = Except.ok PyType.any)
    ∧ PyType.any ≠ PyType.int :=
  ⟨rfl, rfl, fun _ => rfl, by decide⟩
